import Mathlib

/-!
# Verification of libmongocrypt core: KEK descriptors and the context state machine

This development shallowly embeds three source files of libmongocrypt:

* `src/mongocrypt-kek.c` — the KEK (key-encryption-key) descriptor:
  parse, serialize (append), clone, cleanup;
* the context dispatcher (`mongocrypt-ctx.c`) — the driver-facing state
  machine: `mongocrypt_ctx_mongo_op` / `mongo_feed` / `mongo_done`,
  `next_kms_ctx`, `kms_done`, `destroy`;
* the Java binding helper `CAPIHelper` — document/binary conversion.

BSON documents are embedded as association lists of named values; the key
broker and the variant hook table, whose implementations live outside the
embedded sources, are modelled as oracles recording the outcome of each
delegated call, following the description the specification gives of their contracts.
-/

/-! ## Status channel -/

/-- Status kind: ok, client error, or KMS error (`mongocrypt_status_type_t`). -/
inductive StatusType where
  | ok
  | client
  | kms
deriving DecidableEq, Repr

/-- A `mongocrypt_status_t`: kind, numeric code, message. -/
structure Status where
  type : StatusType
  code : Nat
  message : String
deriving DecidableEq, Repr

/-- `mongocrypt_status_ok`: a status is ok when its kind is `ok`. -/
def mongocrypt_status_ok (s : Status) : Bool :=
  s.type = StatusType.ok

/-- The generic error code `MONGOCRYPT_GENERIC_ERROR_CODE` (= 1). -/
def MONGOCRYPT_GENERIC_ERROR_CODE : Nat := 1

/-- Modelled from the spec: `_mongocrypt_set_error` (mongocrypt-status.c, not
among the embedded sources). Per §7 "First failure wins: the status channel is
written once ... Downstream calls do not overwrite", the error is recorded only
when the channel still holds an ok status. -/
def _mongocrypt_set_error (s : Status) (t : StatusType) (c : Nat) (msg : String) : Status :=
  if mongocrypt_status_ok s then { type := t, code := c, message := msg } else s

/-! ## BSON documents (the codec dependency)

The spec treats BSON parsing and building as a document codec dependency.
A document is an association list of fields; the KEK code only ever reads
and writes UTF-8 string values, so other value types are collapsed into a
single `other` constructor (enough to observe type-mismatch failures). -/

/-- A BSON value as seen by the KEK code: a UTF-8 string or anything else. -/
inductive BsonValue where
  | utf8 (s : String)
  | other
deriving DecidableEq, Repr

/-- A BSON document: ordered list of named fields. -/
def BsonDoc := List (String × BsonValue)

instance : DecidableEq BsonDoc := by unfold BsonDoc; infer_instance

/-- `bson_iter_init_find`: the first field with the given name, if any. -/
def bsonFind (doc : BsonDoc) (name : String) : Option BsonValue :=
  match doc with
  | [] => none
  | (n, v) :: rest => if n = name then some v else bsonFind rest name

/-- An endpoint (`_mongocrypt_endpoint_t`), reduced to the one attribute the
embedded code reads and writes: its host-and-port string.
Modelled from the spec: "endpoints normalize to a host-and-port form";
"Endpoints serialize to their original host-and-port string". -/
structure Endpoint where
  host_and_port : String
deriving DecidableEq, Repr

/-- Modelled from the spec: `_mongocrypt_parse_required_utf8`
(mongocrypt-opts.c, not among the embedded sources). "All required string
fields must be valid UTF-8 and non-empty"; a missing field or a wrong type is
a client error. -/
def _mongocrypt_parse_required_utf8 (doc : BsonDoc) (name : String) : Except Status String :=
  match bsonFind doc name with
  | none => Except.error { type := StatusType.client, code := MONGOCRYPT_GENERIC_ERROR_CODE,
                           message := "expected UTF-8 " ++ name }
  | some (BsonValue.utf8 s) =>
      if s = "" then
        Except.error { type := StatusType.client, code := MONGOCRYPT_GENERIC_ERROR_CODE,
                       message := "expected UTF-8 " ++ name }
      else Except.ok s
  | some BsonValue.other =>
      Except.error { type := StatusType.client, code := MONGOCRYPT_GENERIC_ERROR_CODE,
                     message := "expected UTF-8 " ++ name }

/-- Modelled from the spec: `_mongocrypt_parse_optional_utf8`. An absent field
yields nothing; a present field must be a UTF-8 string. -/
def _mongocrypt_parse_optional_utf8 (doc : BsonDoc) (name : String) :
    Except Status (Option String) :=
  match bsonFind doc name with
  | none => Except.ok none
  | some (BsonValue.utf8 s) => Except.ok (some s)
  | some BsonValue.other =>
      Except.error { type := StatusType.client, code := MONGOCRYPT_GENERIC_ERROR_CODE,
                     message := "expected UTF-8 " ++ name }

/-- Modelled from the spec: `_mongocrypt_parse_required_endpoint`.
"endpoint-typed fields must parse into host-and-port form": the field must be
a non-empty UTF-8 string, which becomes the host-and-port of the endpoint. -/
def _mongocrypt_parse_required_endpoint (doc : BsonDoc) (name : String) :
    Except Status Endpoint :=
  match bsonFind doc name with
  | none => Except.error { type := StatusType.client, code := MONGOCRYPT_GENERIC_ERROR_CODE,
                           message := "expected endpoint " ++ name }
  | some (BsonValue.utf8 s) =>
      if s = "" then
        Except.error { type := StatusType.client, code := MONGOCRYPT_GENERIC_ERROR_CODE,
                       message := "expected endpoint " ++ name }
      else Except.ok { host_and_port := s }
  | some BsonValue.other =>
      Except.error { type := StatusType.client, code := MONGOCRYPT_GENERIC_ERROR_CODE,
                     message := "expected endpoint " ++ name }

/-- Modelled from the spec: `_mongocrypt_parse_optional_endpoint`. An absent
field yields nothing; a present field parses as a required endpoint does. -/
def _mongocrypt_parse_optional_endpoint (doc : BsonDoc) (name : String) :
    Except Status (Option Endpoint) :=
  match bsonFind doc name with
  | none => Except.ok none
  | some (BsonValue.utf8 s) =>
      if s = "" then
        Except.error { type := StatusType.client, code := MONGOCRYPT_GENERIC_ERROR_CODE,
                       message := "expected endpoint " ++ name }
      else Except.ok (some { host_and_port := s })
  | some BsonValue.other =>
      Except.error { type := StatusType.client, code := MONGOCRYPT_GENERIC_ERROR_CODE,
                     message := "expected endpoint " ++ name }

/-! ## KEK descriptor (`src/mongocrypt-kek.c`) -/

/-- `_mongocrypt_kek_t`: the tagged variant over the four KMS providers, with
the per-variant fields of the `provider` union (AWS: `cmk`, `region`,
optional `endpoint`; Azure: `key_vault_endpoint`, `key_name`, optional
`key_version`; GCP: `project_id`, `location`, `key_ring`, `key_name`,
optional `key_version`, optional `endpoint`; Local: no fields). -/
inductive Kek where
  | aws (cmk : String) (region : String) (endpoint : Option Endpoint)
  | azure (key_vault_endpoint : Endpoint) (key_name : String) (key_version : Option String)
  | gcp (project_id : String) (location : String) (key_ring : String) (key_name : String)
        (key_version : Option String) (endpoint : Option Endpoint)
  | local_
deriving DecidableEq, Repr

/-- `_mongocrypt_kek_parse_owned`: dispatch on the `provider` field and read
the fields of that variant, mirroring the branch structure of the C function
(aws, local, azure, gcp, else "unrecognized KMS provider"). -/
def _mongocrypt_kek_parse_owned (bson : BsonDoc) : Except Status Kek := do
  let kms_provider ← _mongocrypt_parse_required_utf8 bson "provider"
  if kms_provider = "aws" then
    let cmk ← _mongocrypt_parse_required_utf8 bson "key"
    let region ← _mongocrypt_parse_required_utf8 bson "region"
    let endpoint ← _mongocrypt_parse_optional_endpoint bson "endpoint"
    return Kek.aws cmk region endpoint
  else if kms_provider = "local" then
    return Kek.local_
  else if kms_provider = "azure" then
    let kve ← _mongocrypt_parse_required_endpoint bson "keyVaultEndpoint"
    let key_name ← _mongocrypt_parse_required_utf8 bson "keyName"
    let key_version ← _mongocrypt_parse_optional_utf8 bson "keyVersion"
    return Kek.azure kve key_name key_version
  else if kms_provider = "gcp" then
    let endpoint ← _mongocrypt_parse_optional_endpoint bson "endpoint"
    let project_id ← _mongocrypt_parse_required_utf8 bson "projectId"
    let location ← _mongocrypt_parse_required_utf8 bson "location"
    let key_ring ← _mongocrypt_parse_required_utf8 bson "keyRing"
    let key_name ← _mongocrypt_parse_required_utf8 bson "keyName"
    let key_version ← _mongocrypt_parse_optional_utf8 bson "keyVersion"
    return Kek.gcp project_id location key_ring key_name key_version endpoint
  else
    Except.error { type := StatusType.client, code := MONGOCRYPT_GENERIC_ERROR_CODE,
                   message := "unrecognized KMS provider: " ++ kms_provider }

/-- `_mongocrypt_kek_append`: serialize a KEK descriptor to a BSON document,
appending `provider` and then the fields of the variant in the order of the C
function,
omitting absent optional fields. (The C function always returns true; the
document is the observable result.) -/
def _mongocrypt_kek_append (kek : Kek) : BsonDoc :=
  match kek with
  | Kek.aws cmk region endpoint =>
      [("provider", BsonValue.utf8 "aws"),
       ("region", BsonValue.utf8 region),
       ("key", BsonValue.utf8 cmk)] ++
      (match endpoint with
       | some e => [("endpoint", BsonValue.utf8 e.host_and_port)]
       | none => [])
  | Kek.local_ => [("provider", BsonValue.utf8 "local")]
  | Kek.azure kve key_name key_version =>
      [("provider", BsonValue.utf8 "azure"),
       ("keyVaultEndpoint", BsonValue.utf8 kve.host_and_port),
       ("keyName", BsonValue.utf8 key_name)] ++
      (match key_version with
       | some v => [("keyVersion", BsonValue.utf8 v)]
       | none => [])
  | Kek.gcp project_id location key_ring key_name key_version endpoint =>
      [("provider", BsonValue.utf8 "gcp"),
       ("projectId", BsonValue.utf8 project_id),
       ("location", BsonValue.utf8 location),
       ("keyRing", BsonValue.utf8 key_ring),
       ("keyName", BsonValue.utf8 key_name)] ++
      (match key_version with
       | some v => [("keyVersion", BsonValue.utf8 v)]
       | none => []) ++
      (match endpoint with
       | some e => [("endpoint", BsonValue.utf8 e.host_and_port)]
       | none => [])

/-- `_mongocrypt_kek_copy_to`: clone a descriptor, branch by branch as the C
function does (each owned string is duplicated; the variant tag is copied
last). In the value model a duplicated string is the string itself. -/
def _mongocrypt_kek_copy_to (src : Kek) : Kek :=
  match src with
  | Kek.aws cmk region endpoint => Kek.aws cmk region endpoint
  | Kek.azure kve key_name key_version => Kek.azure kve key_name key_version
  | Kek.gcp project_id location key_ring key_name key_version endpoint =>
      Kek.gcp project_id location key_ring key_name key_version endpoint
  | Kek.local_ => Kek.local_

/-- Well-formedness of a KEK descriptor: every populated string field is
non-empty (the parse helpers reject empty required strings, and the
host-and-port of an endpoint must be non-empty to parse back). Optional
UTF-8 fields may hold any string. -/
def WellFormedKek : Kek → Bool
  | Kek.aws cmk region endpoint =>
      !(cmk == "") && !(region == "") &&
      (match endpoint with
       | some e => !(e.host_and_port == "")
       | none => true)
  | Kek.azure kve key_name _ =>
      !(kve.host_and_port == "") && !(key_name == "")
  | Kek.gcp project_id location key_ring key_name _ endpoint =>
      !(project_id == "") && !(location == "") && !(key_ring == "") && !(key_name == "") &&
      (match endpoint with
       | some e => !(e.host_and_port == "")
       | none => true)
  | Kek.local_ => true

/-! ## Context state machine (`mongocrypt-ctx.c`) -/

/-- `mongocrypt_ctx_state_t`: the driver-visible states. -/
inductive CtxState where
  | NEED_MONGO_COLLINFO
  | NEED_MONGO_MARKINGS
  | NEED_MONGO_KEYS
  | NEED_KMS
  | READY
  | DONE
  | NOTHING_TO_DO
  | ERROR
deriving DecidableEq, Repr

/-- A KMS subcontext handle (`mongocrypt_kms_ctx_t`), opaque to the
dispatcher; only its identity matters here. -/
structure KmsCtx where
  id : Nat
deriving DecidableEq, Repr

/-- Modelled from the spec: the key broker (`mongocrypt-key-broker.c`, not
among the embedded sources) as an oracle recording the outcome of each
delegated call: whether `filter`, `add_doc`, `done_adding_docs` and
`kms_done` succeed, which incomplete subcontext `next_kms` yields (none when
all are complete), and the broker status reported on failure ("Broker-internal
failures bubble to the context on the next driver call via a status-copy"). -/
structure KeyBroker where
  filterOk : Bool
  addDocOk : Bool
  doneAddingOk : Bool
  kmsDoneOk : Bool
  nextKms : Option KmsCtx
  errStatus : Status
deriving DecidableEq, Repr

/-- Modelled from the spec: `_mongocrypt_key_broker_filter` emits the key
fetch filter; the oracle records whether it succeeds. -/
def _mongocrypt_key_broker_filter (kb : KeyBroker) : Bool := kb.filterOk

/-- Modelled from the spec: `_mongocrypt_key_broker_add_doc` ingests one key
document; the oracle records whether it succeeds. -/
def _mongocrypt_key_broker_add_doc (kb : KeyBroker) : Bool := kb.addDocOk

/-- Modelled from the spec: `_mongocrypt_key_broker_done_adding_docs`
freezes ingestion; the oracle records whether it succeeds. -/
def _mongocrypt_key_broker_done_adding_docs (kb : KeyBroker) : Bool := kb.doneAddingOk

/-- Modelled from the spec: `_mongocrypt_key_broker_next_kms` returns "one
subcontext that is not yet complete, or none". -/
def _mongocrypt_key_broker_next_kms (kb : KeyBroker) : Option KmsCtx := kb.nextKms

/-- Modelled from the spec: `_mongocrypt_key_broker_kms_done` asserts all
subcontexts complete; the oracle records whether it succeeds. -/
def _mongocrypt_key_broker_kms_done (kb : KeyBroker) : Bool := kb.kmsDoneOk

/-- Modelled from the spec: `_mongocrypt_key_broker_status` copies the
broker failure status into the given status channel. -/
def _mongocrypt_key_broker_status (kb : KeyBroker) (_s : Status) : Status :=
  kb.errStatus

/-- The mutable core of a `mongocrypt_ctx_t`: current state, status channel,
embedded key broker. -/
structure CtxCore where
  state : CtxState
  status : Status
  kb : KeyBroker
deriving DecidableEq, Repr

/-- Outcome of a context call: the returned boolean and the updated core. -/
def CtxResult := Bool × CtxCore

/-- A variant hook (`_mongocrypt_ctx_mongo_op_fn` etc.): a function on the
context core. Hook implementations live in the encrypt/decrypt variants,
outside the embedded sources. -/
def Hook := CtxCore → CtxResult

/-- The variant hook table (`ctx->vtable`). Collinfo and markings hooks are
nullable (only the auto-encrypt variant installs them); `finalize` and
`cleanup` are as the dispatcher sees them: `finalize` is invoked
unconditionally, `cleanup` only when non-null. -/
structure Vtable where
  mongo_op_collinfo : Option Hook
  mongo_feed_collinfo : Option Hook
  mongo_done_collinfo : Option Hook
  mongo_op_markings : Option Hook
  mongo_feed_markings : Option Hook
  mongo_done_markings : Option Hook
  finalize : Hook
  cleanup : Option Hook

/-- `mongocrypt_ctx_t`: the core plus the variant hook table. -/
structure Ctx where
  core : CtxCore
  vtable : Vtable

/-- `_mongocrypt_ctx_fail`: a failure status has already been set; move the
context to `ERROR` and return false. -/
def _mongocrypt_ctx_fail (c : CtxCore) : CtxResult :=
  (false, { c with state := CtxState.ERROR })

/-- `_mongocrypt_ctx_fail_w_msg`: record a client error with the generic
code and the given message, then fail. -/
def _mongocrypt_ctx_fail_w_msg (c : CtxCore) (msg : String) : CtxResult :=
  _mongocrypt_ctx_fail
    { c with status := _mongocrypt_set_error c.status StatusType.client
                         MONGOCRYPT_GENERIC_ERROR_CODE msg }

/-- `_mongo_op_keys` (shared key-fetch hook): emit the key filter of the broker;
on broker failure copy the broker status and fail. -/
def _mongo_op_keys : Hook := fun c =>
  if !_mongocrypt_key_broker_filter c.kb then
    _mongocrypt_ctx_fail { c with status := _mongocrypt_key_broker_status c.kb c.status }
  else
    (true, c)

/-- `_mongo_feed_keys` (shared key-fetch hook): hand one key document to the
broker; on broker failure copy the broker status and fail. -/
def _mongo_feed_keys : Hook := fun c =>
  if !_mongocrypt_key_broker_add_doc c.kb then
    _mongocrypt_ctx_fail { c with status := _mongocrypt_key_broker_status c.kb c.status }
  else
    (true, c)

/-- `_mongo_done_keys` (shared key-fetch hook): set the state to `NEED_KMS`,
then close broker ingestion; on broker failure copy the broker status and
fail. -/
def _mongo_done_keys : Hook := fun c =>
  let c := { c with state := CtxState.NEED_KMS }
  if !_mongocrypt_key_broker_done_adding_docs c.kb then
    _mongocrypt_ctx_fail { c with status := _mongocrypt_key_broker_status c.kb c.status }
  else
    (true, c)

/-- Shared tail of the three dispatchers: a null hook is a "wrong state"
client error; otherwise the hook runs on the core. -/
def dispatch (ctx : Ctx) (callme : Option Hook) : Bool × Ctx :=
  match callme with
  | none =>
      let r := _mongocrypt_ctx_fail_w_msg ctx.core "wrong state"
      (r.1, { ctx with core := r.2 })
  | some f =>
      let r := f ctx.core
      (r.1, { ctx with core := r.2 })

/-- `mongocrypt_ctx_mongo_op`: dispatch on the current state; only the three
`NEED_MONGO_*` states select a hook (the key-fetch hook is built in), every
other state leaves the hook null. -/
def mongocrypt_ctx_mongo_op (ctx : Ctx) : Bool × Ctx :=
  dispatch ctx
    (match ctx.core.state with
     | CtxState.NEED_MONGO_COLLINFO => ctx.vtable.mongo_op_collinfo
     | CtxState.NEED_MONGO_MARKINGS => ctx.vtable.mongo_op_markings
     | CtxState.NEED_MONGO_KEYS => some _mongo_op_keys
     | _ => none)

/-- `mongocrypt_ctx_mongo_feed`: dispatch on the current state, as
`mongo_op` does. -/
def mongocrypt_ctx_mongo_feed (ctx : Ctx) : Bool × Ctx :=
  dispatch ctx
    (match ctx.core.state with
     | CtxState.NEED_MONGO_COLLINFO => ctx.vtable.mongo_feed_collinfo
     | CtxState.NEED_MONGO_MARKINGS => ctx.vtable.mongo_feed_markings
     | CtxState.NEED_MONGO_KEYS => some _mongo_feed_keys
     | _ => none)

/-- `mongocrypt_ctx_mongo_done`: dispatch on the current state, as
`mongo_op` does. -/
def mongocrypt_ctx_mongo_done (ctx : Ctx) : Bool × Ctx :=
  dispatch ctx
    (match ctx.core.state with
     | CtxState.NEED_MONGO_COLLINFO => ctx.vtable.mongo_done_collinfo
     | CtxState.NEED_MONGO_MARKINGS => ctx.vtable.mongo_done_markings
     | CtxState.NEED_MONGO_KEYS => some _mongo_done_keys
     | _ => none)

/-- `mongocrypt_ctx_state`: read the current state. -/
def mongocrypt_ctx_state (ctx : Ctx) : CtxState := ctx.core.state

/-- `mongocrypt_ctx_next_kms_ctx`: ask the broker for the next incomplete
KMS subcontext and return it (null maps to none). The C function consults
only the broker — it never reads `ctx->state`. -/
def mongocrypt_ctx_next_kms_ctx (ctx : Ctx) : Option KmsCtx :=
  match _mongocrypt_key_broker_next_kms ctx.core.kb with
  | none => none
  | some kms => some kms

/-- `mongocrypt_ctx_kms_done`: tell the broker KMS is done; on broker
failure copy the broker status and fail, otherwise set the state to `READY`
and return true. The C function never reads `ctx->state` first. -/
def mongocrypt_ctx_kms_done (ctx : Ctx) : Bool × Ctx :=
  if !_mongocrypt_key_broker_kms_done ctx.core.kb then
    let r := _mongocrypt_ctx_fail
      { ctx.core with status := _mongocrypt_key_broker_status ctx.core.kb ctx.core.status }
    (r.1, { ctx with core := r.2 })
  else
    (true, { ctx with core := { ctx.core with state := CtxState.READY } })

/-- `mongocrypt_ctx_finalize`: invoke the variant finalize hook
unconditionally. -/
def mongocrypt_ctx_finalize (ctx : Ctx) : Bool × Ctx :=
  let r := ctx.vtable.finalize ctx.core
  (r.1, { ctx with core := r.2 })

/-- The observable teardown steps of `mongocrypt_ctx_destroy`, in order:
the variant cleanup hook, destroying the status, cleaning up the broker,
freeing the context storage. -/
inductive DestroyAction where
  | cleanupHook
  | statusDestroy
  | brokerCleanup
  | freeCtx
deriving DecidableEq, Repr

/-- `mongocrypt_ctx_destroy`: on a null context, return immediately;
otherwise run the cleanup hook when installed, then destroy the status,
clean up the broker, and free the storage. The result lists the teardown
steps performed. -/
def mongocrypt_ctx_destroy (ctx : Option Ctx) : List DestroyAction :=
  match ctx with
  | none => []
  | some c =>
      (match c.vtable.cleanup with
       | some _ => [DestroyAction.cleanupHook]
       | none => []) ++
      [DestroyAction.statusDestroy, DestroyAction.brokerCleanup, DestroyAction.freeCtx]

/-! ## Binding-layer document/binary conversion (`CAPIHelper`) -/

/-- A `mongocrypt_binary_t` as the binding sees it: a data pointer (the byte
sequence it references) and a length. -/
structure MongocryptBinary where
  data : List Nat
  len : Nat
deriving DecidableEq, Repr

/-- `mongocrypt_binary_new_from_data`: wrap a memory region and a length. -/
def mongocrypt_binary_new_from_data (memory : List Nat) (len : Nat) : MongocryptBinary :=
  { data := memory, len := len }

/-- `mongocrypt_binary_data`: the data pointer of a binary. -/
def mongocrypt_binary_data (binary : MongocryptBinary) : List Nat := binary.data

/-- `mongocrypt_binary_len`: the length of a binary. -/
def mongocrypt_binary_len (binary : MongocryptBinary) : Nat := binary.len

/-- A `BinaryHolder`: the owned native memory together with the
`mongocrypt_binary_t` that references it. -/
structure BinaryHolder where
  memory : List Nat
  binary : MongocryptBinary

/-- A `RawBsonDocument`: a document represented by its raw BSON bytes; its
BSON byte encoding is exactly those bytes. -/
structure RawBsonDocument where
  bytes : List Nat
deriving DecidableEq, Repr

namespace CAPIHelper

/-- `CAPIHelper.toBinary(BsonDocument)`: encode the document with its codec
into an output buffer, copy the buffer into fresh native memory, and wrap
that memory in a `mongocrypt_binary_t` of the buffer size. The BSON codec
(`BsonBinaryWriter` plus the codec registry) is the document codec
dependency, passed here as the `encode` function. -/
def toBinary {α : Type} (encode : α → List Nat) (document : α) : BinaryHolder :=
  let buffer := encode document
  let memory := buffer
  { memory := memory,
    binary := mongocrypt_binary_new_from_data memory buffer.length }

/-- `CAPIHelper.toByteBuffer`: view the first `len` bytes of the data the
binary references. -/
def toByteBuffer (binary : MongocryptBinary) : List Nat :=
  (mongocrypt_binary_data binary).take (mongocrypt_binary_len binary)

/-- `CAPIHelper.toDocument`: copy the bytes of the binary out and wrap them
as a raw BSON document. -/
def toDocument (binary : MongocryptBinary) : RawBsonDocument :=
  { bytes := toByteBuffer binary }

end CAPIHelper

/-! ## Concrete fixtures used by witnesses and counterexamples -/

/-- An ok status, as a fresh context carries. -/
def okStatus : Status := { type := StatusType.ok, code := 0, message := "" }

/-- A recorded first-failure status. -/
def firstFailure : Status :=
  { type := StatusType.client, code := 1, message := "key not found" }

/-- A broker oracle on which every delegated call succeeds and no KMS
subcontext is outstanding. -/
def idleBroker : KeyBroker :=
  { filterOk := true, addDocOk := true, doneAddingOk := true, kmsDoneOk := true,
    nextKms := none, errStatus := okStatus }

/-- A hook table with no collinfo/markings hooks and no cleanup hook (the
shape the decrypt variant installs). -/
def nullVtable : Vtable :=
  { mongo_op_collinfo := none, mongo_feed_collinfo := none, mongo_done_collinfo := none,
    mongo_op_markings := none, mongo_feed_markings := none, mongo_done_markings := none,
    finalize := fun c => (true, c), cleanup := none }

/-- A context that has already failed: state `ERROR`, a recorded client
error, an idle broker. -/
def failedCtx : Ctx :=
  { core := { state := CtxState.ERROR, status := firstFailure, kb := idleBroker },
    vtable := nullVtable }

/-- A context in `READY` with an ok status. -/
def readyCtx : Ctx :=
  { core := { state := CtxState.READY, status := okStatus, kb := idleBroker },
    vtable := nullVtable }

/-- A context in `READY` whose broker still has an incomplete KMS
subcontext. -/
def pendingKmsCtx : Ctx :=
  { core := { state := CtxState.READY, status := okStatus,
              kb := { idleBroker with nextKms := some { id := 7 } } },
    vtable := nullVtable }

/-- A context in the terminal `DONE` state. -/
def doneCtx : Ctx :=
  { core := { state := CtxState.DONE, status := okStatus, kb := idleBroker },
    vtable := nullVtable }

/-- A context in `NEED_MONGO_KEYS` with an ok status. -/
def keysCtx : Ctx :=
  { core := { state := CtxState.NEED_MONGO_KEYS, status := okStatus, kb := idleBroker },
    vtable := nullVtable }

/-! ## Claim theorems -/

/-- C1: serializing a well-formed KEK descriptor with `_mongocrypt_kek_append`
and parsing the result with `_mongocrypt_kek_parse_owned` yields the same
descriptor: same variant tag, same value for every populated field, absent
optional fields still absent. -/
theorem kek_parse_append_roundtrip (k : Kek) (h : WellFormedKek k = true) :
    _mongocrypt_kek_parse_owned (_mongocrypt_kek_append k) = Except.ok k := by
  cases k with
  | aws cmk region endpoint =>
      cases endpoint with
      | none =>
          simp only [WellFormedKek, Bool.and_eq_true, Bool.not_eq_eq_eq_not,
            Bool.not_true, beq_eq_false_iff_ne, ne_eq] at h
          obtain ⟨⟨h1, h2⟩, -⟩ := h
          simp [_mongocrypt_kek_append, _mongocrypt_kek_parse_owned, bsonFind,
                _mongocrypt_parse_required_utf8, _mongocrypt_parse_optional_endpoint,
                h1, h2, Bind.bind, Except.bind, Pure.pure, Except.pure]
      | some e =>
          obtain ⟨s⟩ := e
          simp only [WellFormedKek, Bool.and_eq_true, Bool.not_eq_eq_eq_not,
            Bool.not_true, beq_eq_false_iff_ne, ne_eq] at h
          obtain ⟨⟨h1, h2⟩, he⟩ := h
          simp [_mongocrypt_kek_append, _mongocrypt_kek_parse_owned, bsonFind,
                _mongocrypt_parse_required_utf8, _mongocrypt_parse_optional_endpoint,
                h1, h2, he, Bind.bind, Except.bind, Pure.pure, Except.pure]
  | azure kve key_name key_version =>
      obtain ⟨s⟩ := kve
      simp only [WellFormedKek, Bool.and_eq_true, Bool.not_eq_eq_eq_not,
        Bool.not_true, beq_eq_false_iff_ne, ne_eq] at h
      obtain ⟨h1, h2⟩ := h
      cases key_version <;>
        simp [_mongocrypt_kek_append, _mongocrypt_kek_parse_owned, bsonFind,
              _mongocrypt_parse_required_utf8, _mongocrypt_parse_required_endpoint,
              _mongocrypt_parse_optional_utf8, h1, h2,
              Bind.bind, Except.bind, Pure.pure, Except.pure]
  | gcp project_id location key_ring key_name key_version endpoint =>
      cases endpoint with
      | none =>
          simp only [WellFormedKek, Bool.and_eq_true, Bool.not_eq_eq_eq_not,
            Bool.not_true, beq_eq_false_iff_ne, ne_eq] at h
          obtain ⟨⟨⟨⟨h1, h2⟩, h3⟩, h4⟩, -⟩ := h
          cases key_version <;>
            simp [_mongocrypt_kek_append, _mongocrypt_kek_parse_owned, bsonFind,
                _mongocrypt_parse_required_utf8, _mongocrypt_parse_optional_endpoint,
                _mongocrypt_parse_optional_utf8, h1, h2, h3, h4,
                Bind.bind, Except.bind, Pure.pure, Except.pure]
      | some e =>
          obtain ⟨s⟩ := e
          simp only [WellFormedKek, Bool.and_eq_true, Bool.not_eq_eq_eq_not,
            Bool.not_true, beq_eq_false_iff_ne, ne_eq] at h
          obtain ⟨⟨⟨⟨h1, h2⟩, h3⟩, h4⟩, he⟩ := h
          cases key_version <;>
            simp [_mongocrypt_kek_append, _mongocrypt_kek_parse_owned, bsonFind,
                _mongocrypt_parse_required_utf8, _mongocrypt_parse_optional_endpoint,
                _mongocrypt_parse_optional_utf8, h1, h2, h3, h4, he,
                Bind.bind, Except.bind, Pure.pure, Except.pure]
  | local_ => rfl

/-- C1 (witness): the round trip evaluated on a concrete AWS descriptor with
an endpoint override. -/
theorem kek_parse_append_roundtrip_witness :
    WellFormedKek (Kek.aws "arn:cmk" "us-east-1"
      (some { host_and_port := "kms.us-east-1.amazonaws.com:443" })) = true ∧
    _mongocrypt_kek_parse_owned (_mongocrypt_kek_append
      (Kek.aws "arn:cmk" "us-east-1"
        (some { host_and_port := "kms.us-east-1.amazonaws.com:443" }))) =
      Except.ok (Kek.aws "arn:cmk" "us-east-1"
        (some { host_and_port := "kms.us-east-1.amazonaws.com:443" })) :=
  ⟨by decide, kek_parse_append_roundtrip _ (by decide)⟩

/-- C2: parsing a document whose `provider` field is a (non-empty) string
other than "aws", "azure", "gcp" or "local" fails with a client error whose
message is "unrecognized KMS provider: " followed by that string. (The
provider string is non-empty because the spec-modelled required-UTF-8
validation rejects empty required fields before the provider dispatch.) -/
theorem kek_parse_unrecognized_provider (doc : BsonDoc) (p : String)
    (hfind : bsonFind doc "provider" = some (BsonValue.utf8 p))
    (hne : p ≠ "") (ha : p ≠ "aws") (hz : p ≠ "azure") (hg : p ≠ "gcp")
    (hl : p ≠ "local") :
    _mongocrypt_kek_parse_owned doc =
      Except.error { type := StatusType.client, code := MONGOCRYPT_GENERIC_ERROR_CODE,
                     message := "unrecognized KMS provider: " ++ p } := by
  simp [_mongocrypt_kek_parse_owned, _mongocrypt_parse_required_utf8, hfind, hne,
        ha, hz, hg, hl, Bind.bind, Except.bind]

/-- C2 (witness): the seed test of the spec, `provider:"kmip"`. -/
theorem kek_parse_unrecognized_provider_witness :
    bsonFind [("provider", BsonValue.utf8 "kmip")] "provider" =
      some (BsonValue.utf8 "kmip") ∧
    _mongocrypt_kek_parse_owned [("provider", BsonValue.utf8 "kmip")] =
      Except.error { type := StatusType.client, code := MONGOCRYPT_GENERIC_ERROR_CODE,
                     message := "unrecognized KMS provider: kmip" } :=
  ⟨rfl, kek_parse_unrecognized_provider _ "kmip" rfl (by decide) (by decide)
      (by decide) (by decide) (by decide)⟩

/-- C3 (counterexample): in the `ERROR` state (which is not one of the three
`NEED_MONGO_*` states) `mongocrypt_ctx_mongo_feed` returns false and stays in
`ERROR`, but — the status channel being written once — the message remains
the first recorded failure, not "wrong state". -/
theorem wrong_state_keeps_first_error_cex :
    failedCtx.core.state ≠ CtxState.NEED_MONGO_COLLINFO ∧
    failedCtx.core.state ≠ CtxState.NEED_MONGO_MARKINGS ∧
    failedCtx.core.state ≠ CtxState.NEED_MONGO_KEYS ∧
    (mongocrypt_ctx_mongo_feed failedCtx).1 = false ∧
    (mongocrypt_ctx_mongo_feed failedCtx).2.core.status.message = "key not found" ∧
    (mongocrypt_ctx_mongo_feed failedCtx).2.core.status.message ≠ "wrong state" := by
  decide

/-- C3 (amended): for every context whose state is none of the three
`NEED_MONGO_*` states and whose status channel is still ok, each of
`mongocrypt_ctx_mongo_op`, `mongocrypt_ctx_mongo_feed` and
`mongocrypt_ctx_mongo_done` returns false, records a client error with
message "wrong state", and moves the context to `ERROR`. -/
theorem wrong_state_rejection (ctx : Ctx)
    (h1 : ctx.core.state ≠ CtxState.NEED_MONGO_COLLINFO)
    (h2 : ctx.core.state ≠ CtxState.NEED_MONGO_MARKINGS)
    (h3 : ctx.core.state ≠ CtxState.NEED_MONGO_KEYS)
    (hok : mongocrypt_status_ok ctx.core.status = true) :
    (mongocrypt_ctx_mongo_op ctx).1 = false ∧
    (mongocrypt_ctx_mongo_op ctx).2.core.state = CtxState.ERROR ∧
    (mongocrypt_ctx_mongo_op ctx).2.core.status =
      { type := StatusType.client, code := MONGOCRYPT_GENERIC_ERROR_CODE,
        message := "wrong state" } ∧
    (mongocrypt_ctx_mongo_feed ctx).1 = false ∧
    (mongocrypt_ctx_mongo_feed ctx).2.core.state = CtxState.ERROR ∧
    (mongocrypt_ctx_mongo_feed ctx).2.core.status =
      { type := StatusType.client, code := MONGOCRYPT_GENERIC_ERROR_CODE,
        message := "wrong state" } ∧
    (mongocrypt_ctx_mongo_done ctx).1 = false ∧
    (mongocrypt_ctx_mongo_done ctx).2.core.state = CtxState.ERROR ∧
    (mongocrypt_ctx_mongo_done ctx).2.core.status =
      { type := StatusType.client, code := MONGOCRYPT_GENERIC_ERROR_CODE,
        message := "wrong state" } := by
  obtain ⟨⟨st, stat, kb⟩, vt⟩ := ctx
  simp only [] at h1 h2 h3 hok
  cases st <;>
    simp_all [mongocrypt_ctx_mongo_op, mongocrypt_ctx_mongo_feed,
      mongocrypt_ctx_mongo_done, dispatch, _mongocrypt_ctx_fail_w_msg,
      _mongocrypt_ctx_fail, _mongocrypt_set_error]

/-- C3 (witness): the amended rejection evaluated on a concrete context in
`READY` with an ok status — the seed test of the spec. -/
theorem wrong_state_rejection_witness :
    mongocrypt_status_ok readyCtx.core.status = true ∧
    ((mongocrypt_ctx_mongo_op readyCtx).1 = false ∧
     (mongocrypt_ctx_mongo_op readyCtx).2.core.state = CtxState.ERROR ∧
     (mongocrypt_ctx_mongo_op readyCtx).2.core.status =
       { type := StatusType.client, code := MONGOCRYPT_GENERIC_ERROR_CODE,
         message := "wrong state" } ∧
     (mongocrypt_ctx_mongo_feed readyCtx).1 = false ∧
     (mongocrypt_ctx_mongo_feed readyCtx).2.core.state = CtxState.ERROR ∧
     (mongocrypt_ctx_mongo_feed readyCtx).2.core.status =
       { type := StatusType.client, code := MONGOCRYPT_GENERIC_ERROR_CODE,
         message := "wrong state" } ∧
     (mongocrypt_ctx_mongo_done readyCtx).1 = false ∧
     (mongocrypt_ctx_mongo_done readyCtx).2.core.state = CtxState.ERROR ∧
     (mongocrypt_ctx_mongo_done readyCtx).2.core.status =
       { type := StatusType.client, code := MONGOCRYPT_GENERIC_ERROR_CODE,
         message := "wrong state" }) :=
  ⟨rfl, wrong_state_rejection readyCtx (by decide) (by decide) (by decide) rfl⟩

/-- C4 (counterexample): a context already in `ERROR` whose broker reports
`kms_done` success: `mongocrypt_ctx_kms_done` returns true and moves the
context out of `ERROR` to `READY` — a driver call succeeding after the first
failure. -/
theorem error_state_kms_done_escapes_cex :
    failedCtx.core.state = CtxState.ERROR ∧
    mongocrypt_status_ok failedCtx.core.status = false ∧
    (mongocrypt_ctx_kms_done failedCtx).1 = true ∧
    (mongocrypt_ctx_kms_done failedCtx).2.core.state = CtxState.READY := by
  decide

/-- C4 (amended): for every context in `ERROR` (with its failure status
recorded), `mongo_op`, `mongo_feed` and `mongo_done` return false, leave the
context in `ERROR`, and leave the first-recorded status unchanged; but
`kms_done` is not state-guarded: it delegates to the broker even in `ERROR`,
and when the broker reports success it returns true and moves the context to
`READY`. -/
theorem error_state_mongo_calls_refuse (ctx : Ctx)
    (hstate : ctx.core.state = CtxState.ERROR)
    (herr : mongocrypt_status_ok ctx.core.status = false) :
    (mongocrypt_ctx_mongo_op ctx).1 = false ∧
    (mongocrypt_ctx_mongo_op ctx).2.core.state = CtxState.ERROR ∧
    (mongocrypt_ctx_mongo_op ctx).2.core.status = ctx.core.status ∧
    (mongocrypt_ctx_mongo_feed ctx).1 = false ∧
    (mongocrypt_ctx_mongo_feed ctx).2.core.state = CtxState.ERROR ∧
    (mongocrypt_ctx_mongo_feed ctx).2.core.status = ctx.core.status ∧
    (mongocrypt_ctx_mongo_done ctx).1 = false ∧
    (mongocrypt_ctx_mongo_done ctx).2.core.state = CtxState.ERROR ∧
    (mongocrypt_ctx_mongo_done ctx).2.core.status = ctx.core.status ∧
    (mongocrypt_ctx_kms_done ctx).1 = _mongocrypt_key_broker_kms_done ctx.core.kb ∧
    (mongocrypt_ctx_kms_done ctx).2.core.state =
      (if _mongocrypt_key_broker_kms_done ctx.core.kb then CtxState.READY
       else CtxState.ERROR) := by
  obtain ⟨⟨st, stat, kb⟩, vt⟩ := ctx
  simp only [] at hstate herr
  subst hstate
  by_cases hd : kb.kmsDoneOk <;>
    simp_all [mongocrypt_ctx_mongo_op, mongocrypt_ctx_mongo_feed,
      mongocrypt_ctx_mongo_done, mongocrypt_ctx_kms_done, dispatch,
      _mongocrypt_ctx_fail_w_msg, _mongocrypt_ctx_fail, _mongocrypt_set_error,
      _mongocrypt_key_broker_kms_done, _mongocrypt_key_broker_status]

/-- C4 (witness): the amended behavior evaluated on the concrete failed
context. -/
theorem error_state_mongo_calls_refuse_witness :
    failedCtx.core.state = CtxState.ERROR ∧
    mongocrypt_status_ok failedCtx.core.status = false ∧
    ((mongocrypt_ctx_mongo_op failedCtx).1 = false ∧
     (mongocrypt_ctx_mongo_op failedCtx).2.core.state = CtxState.ERROR ∧
     (mongocrypt_ctx_mongo_op failedCtx).2.core.status = failedCtx.core.status ∧
     (mongocrypt_ctx_mongo_feed failedCtx).1 = false ∧
     (mongocrypt_ctx_mongo_feed failedCtx).2.core.state = CtxState.ERROR ∧
     (mongocrypt_ctx_mongo_feed failedCtx).2.core.status = failedCtx.core.status ∧
     (mongocrypt_ctx_mongo_done failedCtx).1 = false ∧
     (mongocrypt_ctx_mongo_done failedCtx).2.core.state = CtxState.ERROR ∧
     (mongocrypt_ctx_mongo_done failedCtx).2.core.status = failedCtx.core.status ∧
     (mongocrypt_ctx_kms_done failedCtx).1 =
       _mongocrypt_key_broker_kms_done failedCtx.core.kb ∧
     (mongocrypt_ctx_kms_done failedCtx).2.core.state =
       (if _mongocrypt_key_broker_kms_done failedCtx.core.kb then CtxState.READY
        else CtxState.ERROR)) :=
  ⟨rfl, rfl, error_state_mongo_calls_refuse failedCtx rfl rfl⟩

/-- C5 (counterexample): a context in `READY` — not `NEED_KMS` — whose broker
still holds an incomplete KMS subcontext: `mongocrypt_ctx_next_kms_ctx`
returns that subcontext rather than none. -/
theorem next_kms_ctx_ignores_state_cex :
    pendingKmsCtx.core.state ≠ CtxState.NEED_KMS ∧
    mongocrypt_ctx_next_kms_ctx pendingKmsCtx = some { id := 7 } := by
  decide

/-- C5 (amended): `mongocrypt_ctx_next_kms_ctx` delegates to the key broker
in every state — its result is exactly what `next_kms` of the broker yields,
regardless of the context state; it returns none only when the broker has no
incomplete subcontext. -/
theorem next_kms_ctx_delegates_in_every_state (ctx : Ctx) :
    mongocrypt_ctx_next_kms_ctx ctx = _mongocrypt_key_broker_next_kms ctx.core.kb := by
  cases h : _mongocrypt_key_broker_next_kms ctx.core.kb <;>
    simp [mongocrypt_ctx_next_kms_ctx, h]

/-- C6 (counterexample): a context in the terminal `DONE` state — not
`NEED_KMS` — still delegates `kms_done` to the broker: the call returns true
and moves the context to `READY`. -/
theorem kms_done_ignores_state_cex :
    doneCtx.core.state ≠ CtxState.NEED_KMS ∧
    (mongocrypt_ctx_kms_done doneCtx).1 = true ∧
    (mongocrypt_ctx_kms_done doneCtx).2.core.state = CtxState.READY := by
  decide

/-- C6 (amended): `mongocrypt_ctx_kms_done` delegates to `kms_done` of the
broker in every state, with no state guard: its boolean result is the broker
result; on broker success the context transitions to `READY` with the status
unchanged, and on broker failure the broker status is copied and the context
enters `ERROR`. -/
theorem kms_done_delegates_in_every_state (ctx : Ctx) :
    (mongocrypt_ctx_kms_done ctx).1 = _mongocrypt_key_broker_kms_done ctx.core.kb ∧
    (mongocrypt_ctx_kms_done ctx).2.core.state =
      (if _mongocrypt_key_broker_kms_done ctx.core.kb then CtxState.READY
       else CtxState.ERROR) ∧
    (mongocrypt_ctx_kms_done ctx).2.core.status =
      (if _mongocrypt_key_broker_kms_done ctx.core.kb then ctx.core.status
       else _mongocrypt_key_broker_status ctx.core.kb ctx.core.status) := by
  obtain ⟨⟨st, stat, kb⟩, vt⟩ := ctx
  by_cases h : kb.kmsDoneOk <;>
    simp_all [mongocrypt_ctx_kms_done, _mongocrypt_key_broker_kms_done,
      _mongocrypt_ctx_fail, _mongocrypt_key_broker_status]

/-- C7: cloning a well-formed KEK descriptor with `_mongocrypt_kek_copy_to`
yields a descriptor semantically equal to the source: same variant tag, same
value for every populated field, absent optional fields still absent. -/
theorem kek_copy_to_preserves (src : Kek) (h : WellFormedKek src = true) :
    _mongocrypt_kek_copy_to src = src := by
  cases src <;> rfl

/-- C7 (witness): the clone evaluated on a concrete Azure descriptor with a
key version. -/
theorem kek_copy_to_preserves_witness :
    WellFormedKek (Kek.azure { host_and_port := "vault.example.com:443" }
      "keyname" (some "v1")) = true ∧
    _mongocrypt_kek_copy_to (Kek.azure { host_and_port := "vault.example.com:443" }
      "keyname" (some "v1")) =
      Kek.azure { host_and_port := "vault.example.com:443" } "keyname" (some "v1") :=
  ⟨by decide, kek_copy_to_preserves _ (by decide)⟩

/-- C8: for a context in `NEED_MONGO_KEYS`, `mongocrypt_ctx_mongo_done`
returns true exactly when the broker accepts `done_adding_docs`; the state
observed after the call reflects the outcome: `NEED_KMS` on success, `ERROR`
on failure. -/
theorem mongo_done_keys_outcome (ctx : Ctx)
    (h : ctx.core.state = CtxState.NEED_MONGO_KEYS) :
    (mongocrypt_ctx_mongo_done ctx).1 =
      _mongocrypt_key_broker_done_adding_docs ctx.core.kb ∧
    (mongocrypt_ctx_mongo_done ctx).2.core.state =
      (if _mongocrypt_key_broker_done_adding_docs ctx.core.kb then CtxState.NEED_KMS
       else CtxState.ERROR) := by
  obtain ⟨⟨st, stat, kb⟩, vt⟩ := ctx
  simp only [] at h
  subst h
  by_cases hd : kb.doneAddingOk <;>
    simp_all [mongocrypt_ctx_mongo_done, dispatch, _mongo_done_keys,
      _mongocrypt_key_broker_done_adding_docs, _mongocrypt_ctx_fail,
      _mongocrypt_key_broker_status]

/-- C8 (witness): the transition evaluated on a concrete context in
`NEED_MONGO_KEYS` whose broker accepts `done_adding_docs`. -/
theorem mongo_done_keys_outcome_witness :
    keysCtx.core.state = CtxState.NEED_MONGO_KEYS ∧
    ((mongocrypt_ctx_mongo_done keysCtx).1 =
       _mongocrypt_key_broker_done_adding_docs keysCtx.core.kb ∧
     (mongocrypt_ctx_mongo_done keysCtx).2.core.state =
       (if _mongocrypt_key_broker_done_adding_docs keysCtx.core.kb then
          CtxState.NEED_KMS
        else CtxState.ERROR)) :=
  ⟨rfl, mongo_done_keys_outcome keysCtx rfl⟩

/-- C9: `mongocrypt_ctx_destroy` on a null context is a safe no-op: it
performs none of the teardown steps (no cleanup hook, no status release, no
broker cleanup, no free). -/
theorem ctx_destroy_null_noop : mongocrypt_ctx_destroy none = [] := rfl

/-- C10: converting a document to a native binary with `CAPIHelper.toBinary`
and back with `CAPIHelper.toDocument` is lossless: the BSON byte encoding of
the resulting raw document equals the BSON byte encoding of the original
document, for every document codec. -/
theorem capihelper_to_binary_to_document_roundtrip {α : Type}
    (encode : α → List Nat) (d : α) :
    (CAPIHelper.toDocument (CAPIHelper.toBinary encode d).binary).bytes = encode d := by
  simp [CAPIHelper.toBinary, CAPIHelper.toDocument, CAPIHelper.toByteBuffer,
        mongocrypt_binary_new_from_data, mongocrypt_binary_data,
        mongocrypt_binary_len, List.take_length]
